import Mathlib

/-!
Shallow embedding of the hq-go-retrier library: the jitter strategies
(package `jitter`), the overflow-guarded backoff strategies (package
`backoff`), and the range-based retry loop (`Retry` / `RetryWithData`).

Go `time.Duration` is a 64-bit signed integer of nanoseconds.  We model
durations as `ℤ` and make every Go arithmetic operation that can overflow
explicit through `i64`, which reduces an integer to two's-complement
64-bit range, exactly as Go's wrap-around `int64` arithmetic does.

Randomness (`crypto/rand` inside `jitter.getRandomDuration`) is modelled
by threading the drawn value `r` as an explicit parameter; theorems that
depend on the draw carry the contract `0 ≤ r < bound` of a successful
`rand.Int` call as a hypothesis.
-/

/-- Two's-complement reduction to signed 64-bit range: the value a Go
`int64` holds after an arithmetic operation on the given exact integer. -/
def i64 (x : ℤ) : ℤ :=
  Int.emod (x + 9223372036854775808) 18446744073709551616 - 9223372036854775808

/-- Go's `math.MaxInt64`, the largest `time.Duration`. -/
def maxInt64 : ℤ := 9223372036854775807

namespace Jitter

/-- Embedding of `jitter.getRandomDuration(maxDuration)`: returns `0` when
`maxDuration ≤ 0`, otherwise a value drawn from `[0, maxDuration)`.  The
draw is the explicit parameter `r`. -/
def getRandomDuration (r maxDuration : ℤ) : ℤ :=
  if maxDuration ≤ 0 then 0 else r

/-- Embedding of `jitter.Equal(backoff)`: midpoint plus a random value
below the midpoint (`midpoint := backoff / 2`, Go division truncates
toward zero). -/
def Equal (r backoff : ℤ) : ℤ :=
  let midpoint := backoff.tdiv 2
  i64 (midpoint + getRandomDuration r midpoint)

/-- Embedding of `jitter.Full(backoff)`: a random value in `[0, backoff)`. -/
def Full (r backoff : ℤ) : ℤ :=
  getRandomDuration r backoff

/-- Embedding of `jitter.Decorrelated(minDelay, maxDelay, previous)`:
`previous == 0` is replaced by `minDelay`, then a random value from
`[0, previous*3)` is added to `minDelay` and the sum capped at
`maxDelay`. -/
def Decorrelated (r minDelay maxDelay previous : ℤ) : ℤ :=
  let previous' := if previous = 0 then minDelay else previous
  let j := getRandomDuration r (i64 (previous' * 3))
  let j' := i64 (j + minDelay)
  if maxDelay < j' then maxDelay else j'

end Jitter

namespace Backoff

/-- Embedding of the doubling loop `for range attempt { if backoff >
math.MaxInt64/2 { backoff = maxDelay; return }; backoff *= 2 }` shared by
all four strategies: `none` signals the early `return maxDelay`
short-circuit, `some b` the value after `fuel` doublings. -/
def doubleLoop : Nat → ℤ → Option ℤ
  | 0, b => some b
  | n + 1, b =>
    if maxInt64.tdiv 2 < b then none else doubleLoop n (i64 (b * 2))

/-- Embedding of the `previous` doubling loop inside
`ExponentialWithDecorrelatedJitter`, whose guard uses `break` (so the
loop stops with `previous = maxDelay` instead of returning). -/
def prevLoop (maxDelay : ℤ) : Nat → ℤ → ℤ
  | 0, p => p
  | n + 1, p =>
    if maxInt64.tdiv 2 < p then maxDelay else prevLoop maxDelay n (i64 (p * 2))

/-- Embedding of the overflow-guarded `backoff.Exponential()` strategy:
zero on degenerate input, `minDelay` for `attempt < 1` when
`maxDelay > minDelay`, otherwise `minDelay` doubled `attempt` times with
the half-`MaxInt64` short-circuit, clamped to `maxDelay`. -/
def Exponential (minDelay maxDelay attempt : ℤ) : ℤ :=
  if minDelay ≤ 0 ∨ maxDelay ≤ 0 ∨ attempt < 0 then 0
  else if maxDelay > minDelay ∧ attempt < 1 then minDelay
  else
    match doubleLoop attempt.toNat minDelay with
    | none => maxDelay
    | some b => if b > maxDelay then maxDelay else b

/-- Embedding of `backoff.ExponentialWithEqualJitter()`: the exponential
value plus `jitter.Equal` of that value, clamped to `maxDelay`. -/
def ExponentialWithEqualJitter (r minDelay maxDelay attempt : ℤ) : ℤ :=
  if minDelay ≤ 0 ∨ maxDelay ≤ 0 ∨ attempt < 0 then 0
  else if maxDelay > minDelay ∧ attempt < 1 then minDelay
  else
    match doubleLoop attempt.toNat minDelay with
    | none => maxDelay
    | some b =>
      let b' := i64 (b + Jitter.Equal r b)
      if b' > maxDelay then maxDelay else b'

/-- Embedding of `backoff.ExponentialWithFullJitter()`: the exponential
value plus `jitter.Full` of that value, clamped to `maxDelay`. -/
def ExponentialWithFullJitter (r minDelay maxDelay attempt : ℤ) : ℤ :=
  if minDelay ≤ 0 ∨ maxDelay ≤ 0 ∨ attempt < 0 then 0
  else if maxDelay > minDelay ∧ attempt < 1 then minDelay
  else
    match doubleLoop attempt.toNat minDelay with
    | none => maxDelay
    | some b =>
      let b' := i64 (b + Jitter.Full r b)
      if b' > maxDelay then maxDelay else b'

/-- Embedding of `backoff.ExponentialWithDecorrelatedJitter()`: the
exponential value plus `jitter.Decorrelated(minDelay, maxDelay, previous)`
where `previous` is `minDelay` doubled `attempt - 1` times, clamped to
`maxDelay`. -/
def ExponentialWithDecorrelatedJitter (r minDelay maxDelay attempt : ℤ) : ℤ :=
  if minDelay ≤ 0 ∨ maxDelay ≤ 0 ∨ attempt < 0 then 0
  else if maxDelay > minDelay ∧ attempt < 1 then minDelay
  else
    match doubleLoop attempt.toNat minDelay with
    | none => maxDelay
    | some b =>
      let previous := if attempt > 0 then prevLoop maxDelay (attempt - 1).toNat minDelay else minDelay
      let b' := i64 (b + Jitter.Decorrelated r minDelay maxDelay previous)
      if b' > maxDelay then maxDelay else b'

end Backoff

namespace Retrier

/-- Embedding of the `Configuration` struct of the retrier package:
maximum retries, delay bounds, the backoff strategy, and whether a
notifier callback is configured.  A Go notifier receives `(err, backoff)`
and returns nothing, so the only observable aspect of the field inside
the loop is whether it is nil; the invocations themselves are recorded in
the loop's trace. -/
structure Configuration where
  maxRetries : ℤ
  minDelay : ℤ
  maxDelay : ℤ
  backoff : ℤ → ℤ → ℤ → ℤ
  notifier : Bool

/-- Embedding of `WithMaxRetries(retries)`. -/
def WithMaxRetries (retries : ℤ) (c : Configuration) : Configuration :=
  { c with maxRetries := retries }

/-- Embedding of `WithMinDelay(delay)`. -/
def WithMinDelay (delay : ℤ) (c : Configuration) : Configuration :=
  { c with minDelay := delay }

/-- Embedding of `WithMaxDelay(delay)`. -/
def WithMaxDelay (delay : ℤ) (c : Configuration) : Configuration :=
  { c with maxDelay := delay }

/-- Embedding of `WithBackoff(strategy)`. -/
def WithBackoff (strategy : ℤ → ℤ → ℤ → ℤ) (c : Configuration) : Configuration :=
  { c with backoff := strategy }

/-- Embedding of `WithNotifier(notifier)`: marks a notifier as configured. -/
def WithNotifier (c : Configuration) : Configuration :=
  { c with notifier := true }

/-- Embedding of the configuration literal built at the top of
`RetryWithData` (`maxRetries: 3, maxDelay: 1000ms, minDelay: 100ms,
backoff: backoff.Exponential()`, notifier nil) with the options applied
in order, later options winning. -/
def applyOptions (opts : List (Configuration → Configuration)) : Configuration :=
  opts.foldl (fun c o => o c)
    ⟨3, 100000000, 1000000000, Backoff.Exponential, false⟩

/-- Observable outcome of one run of the retry loop: the returned
`(result, err)` pair plus the trace the loop produced — how many times
the operation was invoked, how many backoff waits ran to completion, the
backoff delays computed (in order), the `(error, delay)` pairs the
notifier was invoked with (empty when no notifier is configured), and
whether the run panicked.  Go's `time.NewTicker(b)` panics for `b ≤ 0`,
and the loop calls it unconditionally after every failed attempt;
`panicked = true` records that the program aborted there, in which case
`result`/`err` hold the loop's named values at the instant of the panic
and are never actually returned to the caller. -/
structure Outcome (T E : Type) where
  result : T
  err : Option E
  calls : Nat
  waits : Nat
  delays : List ℤ
  notes : List (E × ℤ)
  panicked : Bool
  deriving Repr, DecidableEq

/-- Embedding of the body of `RetryWithData`'s `for attempt := range
cfg.maxRetries` loop.  `op k` is the `(data, err)` pair the operation
returns on its `k`-th invocation; `ctxTop k` is whether `ctx.Done()` is
already closed at the `select` opening iteration `k`; `ctxWait k` is
whether the cancellation fires before the backoff ticker during
iteration `k`'s wait; `ctxErr` is `ctx.Err()`.  `res`/`er` carry the
named return values across iterations, `fuel` is the number of loop
iterations left.  After a failed attempt the delay is computed and the
notifier (when configured) invoked, then `time.NewTicker(b)` runs: for
`b ≤ 0` it panics — the notification has already happened, no wait
starts, and the loop aborts with `panicked = true`. -/
def retryAux {T E : Type} (op : Nat → T × Option E) (ctxTop ctxWait : Nat → Bool)
    (ctxErr : E) (bo : ℤ → ℤ → ℤ → ℤ) (minD maxD : ℤ) (notif : Bool) :
    Nat → Nat → T → Option E → Outcome T E
  | 0, _, res, er => ⟨res, er, 0, 0, [], [], false⟩
  | n + 1, attempt, res, _ =>
    if ctxTop attempt then ⟨res, some ctxErr, 0, 0, [], [], false⟩
    else
      match op attempt with
      | (r, none) => ⟨r, none, 1, 0, [], [], false⟩
      | (r, some e) =>
        let b := bo minD maxD (attempt : ℤ)
        let note := if notif then [(e, b)] else []
        if b ≤ 0 then ⟨r, some e, 1, 0, [b], note, true⟩
        else if ctxWait attempt then ⟨r, some ctxErr, 1, 0, [b], note, false⟩
        else
          let rest := retryAux op ctxTop ctxWait ctxErr bo minD maxD notif n (attempt + 1) r (some e)
          ⟨rest.result, rest.err, rest.calls + 1, rest.waits + 1, b :: rest.delays, note ++ rest.notes,
            rest.panicked⟩

/-- Embedding of `RetryWithData(ctx, operation, options...)`: build the
configuration, then run the loop from attempt `0` with the zero values
`zero` / `none` of the named returns (`zero` is the Go zero value of
`T`). -/
def RetryWithData {T E : Type} (op : Nat → T × Option E) (ctxTop ctxWait : Nat → Bool)
    (ctxErr : E) (zero : T) (opts : List (Configuration → Configuration)) : Outcome T E :=
  let cfg := applyOptions opts
  retryAux op ctxTop ctxWait ctxErr cfg.backoff cfg.minDelay cfg.maxDelay cfg.notifier
    cfg.maxRetries.toNat 0 zero none

/-- Embedding of `Operation.withEmptyData`: lift an error-only operation
to one returning the empty struct alongside its error. -/
def withEmptyData {E : Type} (o : Nat → Option E) : Nat → Unit × Option E :=
  fun k => ((), o k)

/-- Embedding of `Retry(ctx, operation, options...)`: run `RetryWithData`
on the lifted operation and return only the error component. -/
def Retry {E : Type} (op : Nat → Option E) (ctxTop ctxWait : Nat → Bool)
    (ctxErr : E) (opts : List (Configuration → Configuration)) : Option E :=
  (RetryWithData (withEmptyData op) ctxTop ctxWait ctxErr () opts).err

/-- List of the values `g a, g (a + 1), ..., g (a + n - 1)`: the shape of
the per-attempt traces (delays, notifier invocations) the loop produces
over `n` consecutive attempts starting at attempt `a`. -/
def traceMap {A : Type} (g : Nat → A) (a n : Nat) : List A :=
  (List.range n).map (fun i => g (a + i))

/-- Projection of an `Outcome` onto everything except the notifier trace:
used to state that configuring a notifier changes nothing but the
recorded notifier invocations. -/
def eraseNotes {T E : Type} (o : Outcome T E) : Outcome T E :=
  { o with notes := [] }

end Retrier

/-- Wrap-around reduction is the identity on values already inside the
signed 64-bit range. -/
lemma i64_eq_self {x : ℤ} (h1 : -9223372036854775808 ≤ x) (h2 : x ≤ maxInt64) : i64 x = x := by
  have hm : x ≤ 9223372036854775807 := by simpa [maxInt64] using h2
  have h := Int.emod_eq_of_lt (a := x + 9223372036854775808)
    (b := 18446744073709551616) (by omega) (by omega)
  simp only [i64]
  rw [show Int.emod (x + 9223372036854775808) 18446744073709551616 =
      (x + 9223372036854775808) % 18446744073709551616 from rfl, h]
  ring

namespace Retrier

/-- One unfolding of the loop body at a live iteration whose operation
call fails, whose computed delay is positive (so the ticker does not
panic) and whose wait completes: the loop recurses with the next attempt
index carrying this attempt's result and error. -/
lemma retryAux_step {T E : Type} {op : Nat → T × Option E} {ctxTop ctxWait : Nat → Bool}
    {ctxErr : E} {bo : ℤ → ℤ → ℤ → ℤ} {minD maxD : ℤ} {notif : Bool}
    {n a : Nat} {res r : T} {er : Option E} {e : E}
    (hT : ctxTop a = false) (hop : op a = (r, some e)) (hb : 0 < bo minD maxD (a : ℤ))
    (hW : ctxWait a = false) :
    retryAux op ctxTop ctxWait ctxErr bo minD maxD notif (n + 1) a res er =
      ⟨(retryAux op ctxTop ctxWait ctxErr bo minD maxD notif n (a + 1) r (some e)).result,
        (retryAux op ctxTop ctxWait ctxErr bo minD maxD notif n (a + 1) r (some e)).err,
        (retryAux op ctxTop ctxWait ctxErr bo minD maxD notif n (a + 1) r (some e)).calls + 1,
        (retryAux op ctxTop ctxWait ctxErr bo minD maxD notif n (a + 1) r (some e)).waits + 1,
        bo minD maxD (a : ℤ) ::
          (retryAux op ctxTop ctxWait ctxErr bo minD maxD notif n (a + 1) r (some e)).delays,
        (if notif then [(e, bo minD maxD (a : ℤ))] else []) ++
          (retryAux op ctxTop ctxWait ctxErr bo minD maxD notif n (a + 1) r (some e)).notes,
        (retryAux op ctxTop ctxWait ctxErr bo minD maxD notif n (a + 1) r (some e)).panicked⟩ := by
  have hb' : ¬ bo minD maxD (a : ℤ) ≤ 0 := by omega
  conv_lhs => rw [retryAux]
  rw [hT, hop]
  simp [hb', hW]

end Retrier

namespace Retrier

/-- Unfolding of a trace one attempt at a time. -/
lemma traceMap_succ {A : Type} (g : Nat → A) (a n : Nat) :
    traceMap g a (n + 1) = g a :: traceMap g (a + 1) n := by
  simp only [traceMap]
  rw [List.range_succ_eq_map, List.map_cons, List.map_map]
  congr 1
  refine List.map_congr_left ?_
  intro i _
  simp only [Function.comp_apply]
  congr 1
  omega

/-- Trace of the loop when the operation fails on every invocation, the
context never fires and every computed delay is positive (so the ticker
never panics): after `n + 1` iterations the loop has invoked the
operation `n + 1` times, completed `n + 1` waits, computed the backoff
delay of every attempt, notified once per failed attempt when a notifier
is configured, and carries the last attempt's result and error. -/
lemma retryAux_fail {T E : Type} (vals : Nat → T) (errs : Nat → E)
    (ctxT ctxW : Nat → Bool) (hT : ∀ k, ctxT k = false) (hW : ∀ k, ctxW k = false)
    (ctxE : E) (bo : ℤ → ℤ → ℤ → ℤ) (minD maxD : ℤ) (notif : Bool) :
    ∀ (n a : Nat) (res : T) (er : Option E),
      (∀ k, a ≤ k → k ≤ a + n → 0 < bo minD maxD (k : ℤ)) →
      retryAux (fun k => (vals k, some (errs k))) ctxT ctxW ctxE bo minD maxD notif (n + 1) a res er =
        ⟨vals (a + n), some (errs (a + n)), n + 1, n + 1,
          traceMap (fun k => bo minD maxD (k : ℤ)) a (n + 1),
          if notif then traceMap (fun k => (errs k, bo minD maxD (k : ℤ))) a (n + 1) else [],
          false⟩ := by
  intro n
  induction n with
  | zero =>
    intro a res er hb
    rw [retryAux_step (hT a) rfl (hb a (by omega) (by omega)) (hW a), traceMap_succ,
      traceMap_succ]
    simp [retryAux, traceMap]
  | succ n ih =>
    intro a res er hb
    rw [retryAux_step (hT a) rfl (hb a (by omega) (by omega)) (hW a),
      ih (a + 1) (vals a) (some (errs a)) (fun k h1 h2 => hb k (by omega) (by omega)),
      traceMap_succ (fun k => bo minD maxD (k : ℤ)) a (n + 1),
      traceMap_succ (fun k => (errs k, bo minD maxD (k : ℤ))) a (n + 1)]
    have harith : a + 1 + n = a + (n + 1) := by omega
    rw [harith]
    rcases notif with _ | _
    · simp
    · simp

end Retrier

namespace Retrier

/-- Unfolding of the loop at a live iteration whose operation call
succeeds: the loop returns that call's result immediately, with no
delay computed, no wait, and no notification. -/
lemma retryAux_first_success {T E : Type} {op : Nat → T × Option E} {ctxT ctxW : Nat → Bool}
    {ctxE : E} {bo : ℤ → ℤ → ℤ → ℤ} {minD maxD : ℤ} {notif : Bool} {n a : Nat} {res : T}
    {er : Option E} (hT : ctxT a = false) (hsucc : (op a).2 = none) :
    retryAux op ctxT ctxW ctxE bo minD maxD notif (n + 1) a res er =
      ⟨(op a).1, none, 1, 0, [], [], false⟩ := by
  have hop : op a = ((op a).1, none) := by
    rw [← hsucc]
  conv_lhs => rw [retryAux]
  rw [hT, hop]
  simp

/-- Whether a notifier is configured does not affect any component of
the loop's outcome other than the notifier trace itself. -/
lemma retryAux_notif_erase {T E : Type} (op : Nat → T × Option E) (ctxT ctxW : Nat → Bool)
    (ctxE : E) (bo : ℤ → ℤ → ℤ → ℤ) (minD maxD : ℤ) :
    ∀ (n a : Nat) (res : T) (er : Option E),
      eraseNotes (retryAux op ctxT ctxW ctxE bo minD maxD true n a res er) =
        eraseNotes (retryAux op ctxT ctxW ctxE bo minD maxD false n a res er) := by
  intro n
  induction n with
  | zero =>
    intro a res er
    rfl
  | succ n ih =>
    intro a res er
    rcases hTv : ctxT a with _ | _
    · rcases hop : op a with ⟨r, e⟩
      rcases e with _ | e
      · simp [retryAux, hTv, hop]
      · by_cases hb : bo minD maxD (a : ℤ) ≤ 0
        · simp [retryAux, hTv, hop, hb, eraseNotes]
        · rcases hWv : ctxW a with _ | _
          · have h := ih (a + 1) r (some e)
            have hres := congrArg Outcome.result h
            have herr := congrArg Outcome.err h
            have hcalls := congrArg Outcome.calls h
            have hwaits := congrArg Outcome.waits h
            have hdelays := congrArg Outcome.delays h
            have hpan := congrArg Outcome.panicked h
            simp only [eraseNotes] at hres herr hcalls hwaits hdelays hpan
            simp [retryAux, hTv, hop, hWv, hb, eraseNotes, hres, herr, hcalls, hwaits,
              hdelays, hpan]
          · simp [retryAux, hTv, hop, hWv, hb, eraseNotes]
    · simp [retryAux, hTv, eraseNotes]

/-- Appending `WithNotifier` to an option list only flips the notifier
flag of the resulting configuration. -/
lemma applyOptions_append_notifier (opts : List (Configuration → Configuration)) :
    applyOptions (opts ++ [WithNotifier]) = { applyOptions opts with notifier := true } := by
  simp [applyOptions, List.foldl_append, WithNotifier]

end Retrier

/-- C1: the spec claims every backoff strategy stays inside
`[minDelay, maxDelay]` for all `0 < minDelay ≤ maxDelay` and
`attempt ≥ 0`, with the half-`MaxInt64` guard preventing any overflow.
The guard misses the jitter addition: at
`minDelay = MaxInt64/2, maxDelay = MaxInt64, attempt = 1` (a single
doubling, below the short-circuit threshold) with random draw `0`,
`ExponentialWithEqualJitter` wraps around to a negative duration, far
below `minDelay`. -/
theorem c1_equal_jitter_overflow :
    Backoff.ExponentialWithEqualJitter 0 4611686018427387903 9223372036854775807 1 =
      -4611686018427387907 ∧
    Backoff.ExponentialWithEqualJitter 0 4611686018427387903 9223372036854775807 1 <
      4611686018427387903 := by
  decide

/-- C4: every strategy returns a zero delay whenever `minDelay ≤ 0`,
`maxDelay ≤ 0`, or `attempt < 0`, for every random draw. -/
theorem c4_degenerate_inputs_zero (r minDelay maxDelay attempt : ℤ)
    (h : minDelay ≤ 0 ∨ maxDelay ≤ 0 ∨ attempt < 0) :
    Backoff.Exponential minDelay maxDelay attempt = 0 ∧
    Backoff.ExponentialWithEqualJitter r minDelay maxDelay attempt = 0 ∧
    Backoff.ExponentialWithFullJitter r minDelay maxDelay attempt = 0 ∧
    Backoff.ExponentialWithDecorrelatedJitter r minDelay maxDelay attempt = 0 := by
  refine ⟨?_, ?_, ?_, ?_⟩
  · unfold Backoff.Exponential
    rw [if_pos h]
  · unfold Backoff.ExponentialWithEqualJitter
    rw [if_pos h]
  · unfold Backoff.ExponentialWithFullJitter
    rw [if_pos h]
  · unfold Backoff.ExponentialWithDecorrelatedJitter
    rw [if_pos h]

/-- Witness for C4 at a concrete degenerate input. -/
theorem c4_degenerate_inputs_zero_witness :
    Backoff.Exponential (-1) 1000 5 = 0 ∧
    Backoff.ExponentialWithEqualJitter 7 (-1) 1000 5 = 0 ∧
    Backoff.ExponentialWithFullJitter 7 (-1) 1000 5 = 0 ∧
    Backoff.ExponentialWithDecorrelatedJitter 7 (-1) 1000 5 = 0 :=
  c4_degenerate_inputs_zero 7 (-1) 1000 5 (Or.inl (by decide))

/-- C7 counterexample: the claim says `Equal(base)` returns exactly `0`
for every `base ≤ 0`, but `Equal(-4)` returns `-2`. -/
theorem c7_counterexample :
    Jitter.Equal 0 (-4) = -2 ∧ Jitter.Equal 0 (-4) ≠ 0 := by
  decide

/-- C7 (amended): for `base > 0` with a successful draw, `Equal` returns
`base/2` plus the draw from `[0, base/2)` (the draw is `0` when
`base/2 = 0`), so the result lies in `[base/2, base)`; for `base ≤ 0` it
returns `base/2` truncated toward zero, which is `0` only for
`base ∈ {-1, 0}`. -/
theorem c7_equal_jitter_amended (base r : ℤ) (hlo : -9223372036854775808 ≤ base)
    (hhi : base ≤ maxInt64) :
    (0 < base → (base.tdiv 2 ≤ 0 ∨ (0 ≤ r ∧ r < base.tdiv 2)) →
      Jitter.Equal r base = base.tdiv 2 + Jitter.getRandomDuration r (base.tdiv 2) ∧
      base.tdiv 2 ≤ Jitter.Equal r base ∧ Jitter.Equal r base < base) ∧
    (base ≤ 0 → Jitter.Equal r base = base.tdiv 2) := by
  have hm : maxInt64 = 9223372036854775807 := rfl
  rw [hm] at hhi
  constructor
  · intro hpos hr
    have hmid : base.tdiv 2 = base / 2 := Int.tdiv_eq_ediv (by omega) (by omega)
    simp only [Jitter.Equal, Jitter.getRandomDuration, hmid]
    rcases hr with h0 | ⟨h1, h2⟩
    · rw [hmid] at h0
      rw [if_pos h0, i64_eq_self (by omega) (by rw [hm]; omega)]
      refine ⟨rfl, by omega, by omega⟩
    · rw [hmid] at h2
      have hneg : ¬ (base / 2 ≤ 0) := by omega
      rw [if_neg hneg, i64_eq_self (by omega) (by rw [hm]; omega)]
      refine ⟨rfl, by omega, by omega⟩
  · intro hneg
    have hmid : base.tdiv 2 = -((-base).tdiv 2) := by
      rw [← Int.neg_tdiv, neg_neg]
    have h2 : (-base).tdiv 2 = (-base) / 2 := Int.tdiv_eq_ediv (by omega) (by omega)
    have hle : base.tdiv 2 ≤ 0 := by
      rw [hmid, h2]
      omega
    simp only [Jitter.Equal, Jitter.getRandomDuration, if_pos hle, add_zero]
    refine i64_eq_self ?_ ?_
    · rw [hmid, h2]
      omega
    · rw [hm, hmid, h2]
      omega

/-- Witness for C7 (amended) at `base = 10`, draw `3`: result `8 ∈ [5, 10)`. -/
theorem c7_equal_jitter_amended_witness :
    (5 : ℤ) ≤ Jitter.Equal 3 10 ∧ Jitter.Equal 3 10 < 10 := by
  have h := (c7_equal_jitter_amended 10 3 (by decide) (by decide)).1 (by decide)
    (Or.inr (by constructor <;> decide))
  exact ⟨h.2.1, h.2.2⟩

/-- C8 counterexample: the claim says `Decorrelated` returns `0` whenever
`minDelay < 0` (it returns `-5` at `(-5, 10, 1)` with draw `0`), and that
every `previous ≤ 0` is treated as `minDelay` (with draw `5`,
`previous = -3` yields `2` while `previous = minDelay = 2` yields `7`:
only `previous == 0` is remapped). -/
theorem c8_counterexample :
    (Jitter.Decorrelated 0 (-5) 10 1 = -5 ∧ Jitter.Decorrelated 0 (-5) 10 1 ≠ 0) ∧
    (Jitter.Decorrelated 5 2 100 (-3) = 2 ∧ Jitter.Decorrelated 5 2 100 2 = 7 ∧
      Jitter.Decorrelated 5 2 100 (-3) ≠ Jitter.Decorrelated 5 2 100 2) := by
  decide

/-- C8 (amended): `Decorrelated` treats `previous` equal to `0` (and only
exactly `0`) as `minDelay`; with a successful draw `r` from
`[0, previous*3)` and no overflow it returns `minDelay + r` capped at
`maxDelay`, which lies in `[minDelay, maxDelay]` when
`minDelay ≤ maxDelay`; it performs no input-validation guard, so
negative `minDelay`/`maxDelay` or `minDelay > maxDelay` need not yield
`0`. -/
theorem c8_decorrelated_amended (r minD maxD prev : ℤ) :
    Jitter.Decorrelated r minD maxD 0 = Jitter.Decorrelated r minD maxD minD ∧
    (0 ≤ minD → 0 < prev → 0 ≤ r → r < prev * 3 → minD + prev * 3 ≤ maxInt64 →
      (Jitter.Decorrelated r minD maxD prev = if maxD < minD + r then maxD else minD + r) ∧
      (minD ≤ maxD → minD ≤ Jitter.Decorrelated r minD maxD prev ∧
        Jitter.Decorrelated r minD maxD prev ≤ maxD)) := by
  have hm : maxInt64 = 9223372036854775807 := rfl
  constructor
  · by_cases h : minD = 0
    · subst h
      rfl
    · simp [Jitter.Decorrelated, h]
  · intro h0 h1 h2 h3 h4
    rw [hm] at h4
    have hprev : ¬ (prev = 0) := by omega
    have hp3 : i64 (prev * 3) = prev * 3 := i64_eq_self (by omega) (by rw [hm]; omega)
    have hpos : ¬ (prev * 3 ≤ 0) := by omega
    have hsum : i64 (r + minD) = r + minD := i64_eq_self (by omega) (by rw [hm]; omega)
    simp only [Jitter.Decorrelated, if_neg hprev, hp3, Jitter.getRandomDuration,
      if_neg hpos, hsum]
    have hcomm : r + minD = minD + r := by omega
    rw [hcomm]
    refine ⟨rfl, fun hmm => ?_⟩
    constructor
    · split_ifs <;> omega
    · split_ifs <;> omega

/-- Witness for C8 (amended) at `(minDelay, maxDelay, previous) = (1, 10, 1)`
with draw `2`: result `3 ∈ [1, 10]`. -/
theorem c8_decorrelated_amended_witness :
    Jitter.Decorrelated 2 1 10 1 = 3 ∧ (1 : ℤ) ≤ Jitter.Decorrelated 2 1 10 1 ∧
      Jitter.Decorrelated 2 1 10 1 ≤ 10 := by
  have h := (c8_decorrelated_amended 2 1 10 1).2 (by decide) (by decide) (by decide)
    (by decide) (by decide)
  refine ⟨?_, (h.2 (by decide)).1, (h.2 (by decide)).2⟩
  rw [h.1]
  decide

namespace Retrier

/-- Unfolding of the loop at a live iteration whose opening context check
fires: the loop returns the carried result with the cancellation error,
invoking nothing. -/
lemma retryAux_cancelled {T E : Type} {op : Nat → T × Option E} {ctxT ctxW : Nat → Bool}
    {ctxE : E} {bo : ℤ → ℤ → ℤ → ℤ} {minD maxD : ℤ} {notif : Bool} {n a : Nat} {res : T}
    {er : Option E} (hT : ctxT a = true) :
    retryAux op ctxT ctxW ctxE bo minD maxD notif (n + 1) a res er =
      ⟨res, some ctxE, 0, 0, [], [], false⟩ := by
  conv_lhs => rw [retryAux]
  rw [hT]
  simp

end Retrier

/-- C2 counterexample: the claim quantifies over every configuration,
but with the minimum delay set to `0` every backoff strategy computes a
zero delay, so the loop's `time.NewTicker` call panics after the first
failed attempt: the operation is invoked once, not three times, and no
error is ever returned to the caller. -/
theorem c2_counterexample :
    (Retrier.RetryWithData (fun k => (k, some (k + 10))) (fun _ => false) (fun _ => false)
      0 0 [Retrier.WithMaxRetries 3, Retrier.WithMinDelay 0]).calls = 1 ∧
    (Retrier.RetryWithData (fun k => (k, some (k + 10))) (fun _ => false) (fun _ => false)
      0 0 [Retrier.WithMaxRetries 3, Retrier.WithMinDelay 0]).panicked = true ∧
    (Retrier.RetryWithData (fun k => (k, some (k + 10))) (fun _ => false) (fun _ => false)
      0 0 [Retrier.WithMaxRetries 3, Retrier.WithMinDelay 0]).calls ≠ 3 := by
  decide

/-- C2 (amended): with a never-cancelled context, max retries set to any
positive `N`, and every computed backoff delay positive (so the ticker
never panics), an operation that fails on every invocation is invoked
exactly `N` times and the error value of the `N`-th invocation is
returned as-is. -/
theorem c2_exhaustion_count_and_error {T E : Type} (vals : Nat → T) (errs : Nat → E)
    (ctxT ctxW : Nat → Bool) (hT : ∀ k, ctxT k = false) (hW : ∀ k, ctxW k = false)
    (ctxE : E) (zero : T) (opts : List (Retrier.Configuration → Retrier.Configuration))
    (N : ℤ) (hN : 0 < N) (hcfg : (Retrier.applyOptions opts).maxRetries = N)
    (hb : ∀ k : Nat, k < N.toNat → 0 < (Retrier.applyOptions opts).backoff
      (Retrier.applyOptions opts).minDelay (Retrier.applyOptions opts).maxDelay (k : ℤ)) :
    (Retrier.RetryWithData (fun k => (vals k, some (errs k))) ctxT ctxW ctxE zero opts).calls =
      N.toNat ∧
    (Retrier.RetryWithData (fun k => (vals k, some (errs k))) ctxT ctxW ctxE zero opts).err =
      some (errs (N.toNat - 1)) ∧
    (Retrier.RetryWithData (fun k => (vals k, some (errs k))) ctxT ctxW ctxE zero
      opts).panicked = false := by
  obtain ⟨n, hn⟩ : ∃ n, N.toNat = n + 1 := ⟨N.toNat - 1, by omega⟩
  simp only [Retrier.RetryWithData, hcfg, hn]
  rw [Retrier.retryAux_fail vals errs ctxT ctxW hT hW ctxE _ _ _ _ n 0 zero none
    (fun k h1 h2 => hb k (by omega))]
  refine ⟨by simp, by simp, rfl⟩

/-- Witness for C2 (amended): max retries `3`, default positive delays,
always-failing operation — three invocations, error of the third
invocation returned, no panic. -/
theorem c2_exhaustion_count_and_error_witness :
    (Retrier.RetryWithData (fun k => (k, some (k + 10))) (fun _ => false) (fun _ => false)
      0 0 [Retrier.WithMaxRetries 3]).calls = 3 ∧
    (Retrier.RetryWithData (fun k => (k, some (k + 10))) (fun _ => false) (fun _ => false)
      0 0 [Retrier.WithMaxRetries 3]).err = some 12 := by
  have h := c2_exhaustion_count_and_error (fun k => k) (fun k => k + 10)
    (fun _ => false) (fun _ => false) (fun _ => rfl) (fun _ => rfl)
    0 0 [Retrier.WithMaxRetries 3] 3 (by decide) rfl (by decide)
  exact ⟨by simpa using h.1, by simpa using h.2.1⟩

/-- C3 counterexample: the claim quantifies over every configuration, but
with `WithMaxRetries 0` the loop body never runs, so an
already-cancelled context yields a `nil` error instead of the
cancellation reason (the operation is still invoked zero times). -/
theorem c3_counterexample :
    (Retrier.RetryWithData (fun k => ((0 : Nat), some k)) (fun _ => true) (fun _ => true)
      7 0 [Retrier.WithMaxRetries 0]).calls = 0 ∧
    (Retrier.RetryWithData (fun k => ((0 : Nat), some k)) (fun _ => true) (fun _ => true)
      7 0 [Retrier.WithMaxRetries 0]).err ≠ some 7 := by
  decide

/-- C3 (amended): provided the configured max retries is positive, a
context already triggered at the first iteration makes both entry points
return the cancellation reason with the operation invoked zero times. -/
theorem c3_cancellation_precedence {T E : Type} (op : Nat → T × Option E)
    (op0 : Nat → Option E) (ctxT ctxW : Nat → Bool) (ctxE : E) (zero : T)
    (opts : List (Retrier.Configuration → Retrier.Configuration))
    (hpos : 0 < (Retrier.applyOptions opts).maxRetries) (hT : ctxT 0 = true) :
    (Retrier.RetryWithData op ctxT ctxW ctxE zero opts).calls = 0 ∧
    (Retrier.RetryWithData op ctxT ctxW ctxE zero opts).err = some ctxE ∧
    Retrier.Retry op0 ctxT ctxW ctxE opts = some ctxE := by
  obtain ⟨n, hn⟩ : ∃ n, (Retrier.applyOptions opts).maxRetries.toNat = n + 1 :=
    ⟨(Retrier.applyOptions opts).maxRetries.toNat - 1, by omega⟩
  refine ⟨?_, ?_, ?_⟩
  · simp only [Retrier.RetryWithData, hn]
    rw [Retrier.retryAux_cancelled hT]
  · simp only [Retrier.RetryWithData, hn]
    rw [Retrier.retryAux_cancelled hT]
  · simp only [Retrier.Retry, Retrier.RetryWithData, hn]
    rw [Retrier.retryAux_cancelled hT]

/-- Witness for C3 (amended): default configuration (max retries `3`),
already-cancelled context. -/
theorem c3_cancellation_precedence_witness :
    (Retrier.RetryWithData (fun k => ((0 : Nat), some k)) (fun _ => true) (fun _ => true)
      7 0 []).calls = 0 ∧
    (Retrier.RetryWithData (fun k => ((0 : Nat), some k)) (fun _ => true) (fun _ => true)
      7 0 []).err = some 7 ∧
    Retrier.Retry (fun k => some k) (fun _ => true) (fun _ => true) 7 [] = some 7 :=
  c3_cancellation_precedence (fun k => ((0 : Nat), some k)) (fun k => some k)
    (fun _ => true) (fun _ => true) 7 0 [] (by decide) rfl

/-- C5: when the configured max retries is zero or negative, the
range-based loop runs zero iterations: the operation is never invoked
and the zero value of the result type is returned with a `nil` error,
for every operation and every context. -/
theorem c5_nonpositive_retries_nil {T E : Type} (op : Nat → T × Option E)
    (ctxT ctxW : Nat → Bool) (ctxE : E) (zero : T)
    (opts : List (Retrier.Configuration → Retrier.Configuration))
    (h : (Retrier.applyOptions opts).maxRetries ≤ 0) :
    Retrier.RetryWithData op ctxT ctxW ctxE zero opts = ⟨zero, none, 0, 0, [], [], false⟩ := by
  have h0 : (Retrier.applyOptions opts).maxRetries.toNat = 0 := Int.toNat_of_nonpos h
  simp only [Retrier.RetryWithData, h0]
  rfl

/-- Witness for C5: max retries `-2`, an operation that would succeed —
zero invocations, `nil` error, zero-value result. -/
theorem c5_nonpositive_retries_nil_witness :
    Retrier.RetryWithData (fun _ => ((5 : Nat), (none : Option Nat))) (fun _ => false)
      (fun _ => false) 9 0 [Retrier.WithMaxRetries (-2)] = ⟨0, none, 0, 0, [], [], false⟩ :=
  c5_nonpositive_retries_nil (fun _ => ((5 : Nat), (none : Option Nat))) (fun _ => false)
    (fun _ => false) 9 0 [Retrier.WithMaxRetries (-2)] (by decide)

/-- C6 counterexample: the claim quantifies over any max-attempts value,
but with `WithMaxRetries 0` an operation that would succeed on its first
invocation is invoked zero times, not once. -/
theorem c6_counterexample :
    (Retrier.RetryWithData (fun _ => ((5 : Nat), (none : Option Nat))) (fun _ => false)
      (fun _ => false) 9 0 [Retrier.WithMaxRetries 0]).calls = 0 ∧
    (Retrier.RetryWithData (fun _ => ((5 : Nat), (none : Option Nat))) (fun _ => false)
      (fun _ => false) 9 0 [Retrier.WithMaxRetries 0]).calls ≠ 1 := by
  decide

/-- C6 (amended): provided max retries is positive and the context is
not already triggered at the first check, an operation succeeding on its
first invocation is invoked exactly once and its result returned with a
`nil` error, with no backoff delay computed, no wait performed and no
notification, whatever the rest of the configuration; the no-result
entry point likewise returns `nil`. -/
theorem c6_first_try_success {T E : Type} (op : Nat → T × Option E) (op0 : Nat → Option E)
    (ctxT ctxW : Nat → Bool) (ctxE : E) (zero : T)
    (opts : List (Retrier.Configuration → Retrier.Configuration))
    (hpos : 0 < (Retrier.applyOptions opts).maxRetries) (hT : ctxT 0 = false)
    (hs : (op 0).2 = none) (hs0 : op0 0 = none) :
    Retrier.RetryWithData op ctxT ctxW ctxE zero opts = ⟨(op 0).1, none, 1, 0, [], [], false⟩ ∧
    Retrier.Retry op0 ctxT ctxW ctxE opts = none := by
  obtain ⟨n, hn⟩ : ∃ n, (Retrier.applyOptions opts).maxRetries.toNat = n + 1 :=
    ⟨(Retrier.applyOptions opts).maxRetries.toNat - 1, by omega⟩
  constructor
  · simp only [Retrier.RetryWithData, hn]
    exact Retrier.retryAux_first_success hT hs
  · have hs' : (Retrier.withEmptyData op0 0).2 = none := by
      simpa [Retrier.withEmptyData] using hs0
    simp only [Retrier.Retry, Retrier.RetryWithData, hn]
    rw [Retrier.retryAux_first_success hT hs']

/-- Witness for C6 (amended): default configuration, operation
succeeding immediately with value `42`. -/
theorem c6_first_try_success_witness :
    Retrier.RetryWithData (fun _ => ((42 : Nat), (none : Option Nat))) (fun _ => false)
      (fun _ => false) 7 0 [] = ⟨42, none, 1, 0, [], [], false⟩ ∧
    Retrier.Retry (fun _ => (none : Option Nat)) (fun _ => false) (fun _ => false) 7 [] =
      none :=
  c6_first_try_success (fun _ => ((42 : Nat), (none : Option Nat)))
    (fun _ => (none : Option Nat)) (fun _ => false) (fun _ => false) 7 0 []
    (by decide) rfl rfl rfl

/-- C10: the no-result entry point is exactly the result-producing one
applied to the operation lifted with the empty-struct placeholder,
projected onto the error component. -/
theorem c10_retry_delegates {E : Type} (op : Nat → Option E) (ctxT ctxW : Nat → Bool)
    (ctxE : E) (opts : List (Retrier.Configuration → Retrier.Configuration)) :
    Retrier.Retry op ctxT ctxW ctxE opts =
      (Retrier.RetryWithData (fun k => ((), op k)) ctxT ctxW ctxE () opts).err :=
  rfl

namespace Retrier

/-- Unfolding of the loop at a live iteration whose operation call fails
and whose wait is cancelled: the delay was computed and the notifier
invoked before the wait, but no wait completed. -/
lemma retryAux_wait_cancelled {T E : Type} {op : Nat → T × Option E} {ctxT ctxW : Nat → Bool}
    {ctxE : E} {bo : ℤ → ℤ → ℤ → ℤ} {minD maxD : ℤ} {notif : Bool} {n a : Nat} {res r : T}
    {er : Option E} {e : E} (hT : ctxT a = false) (hop : op a = (r, some e))
    (hb : 0 < bo minD maxD (a : ℤ)) (hW : ctxW a = true) :
    retryAux op ctxT ctxW ctxE bo minD maxD notif (n + 1) a res er =
      ⟨r, some ctxE, 1, 0, [bo minD maxD (a : ℤ)],
        if notif then [(e, bo minD maxD (a : ℤ))] else [], false⟩ := by
  have hb' : ¬ bo minD maxD (a : ℤ) ≤ 0 := by omega
  conv_lhs => rw [retryAux]
  rw [hT, hop]
  simp [hb', hW]

end Retrier

/-- C9: configuring a notifier changes nothing about the loop's result,
error, invocation count, completed waits, computed delays or panic
behaviour (first conjunct, over all configurations); under a
never-cancelled context, an always-failing operation and positive
computed delays — the condition for every failed attempt to be followed
by a wait rather than a ticker panic — the notifier is invoked exactly
once per failed attempt, in attempt order, with that attempt's error and
computed backoff delay (second conjunct); and when cancellation fires
during the very first wait the notifier has already been invoked for
that attempt even though no wait completed, i.e. the notification
happens after the delay is computed and before the wait (third
conjunct). -/
theorem c9_notifier_advisory (T E : Type) :
    (∀ (op : Nat → T × Option E) (ctxT ctxW : Nat → Bool) (ctxE : E) (zero : T)
        (opts : List (Retrier.Configuration → Retrier.Configuration)),
      Retrier.eraseNotes
          (Retrier.RetryWithData op ctxT ctxW ctxE zero (opts ++ [Retrier.WithNotifier])) =
        Retrier.eraseNotes (Retrier.RetryWithData op ctxT ctxW ctxE zero opts)) ∧
    (∀ (vals : Nat → T) (errs : Nat → E) (ctxT ctxW : Nat → Bool) (ctxE : E) (zero : T)
        (opts : List (Retrier.Configuration → Retrier.Configuration)) (N : ℤ),
      (∀ k, ctxT k = false) → (∀ k, ctxW k = false) →
      (Retrier.applyOptions opts).notifier = true →
      (Retrier.applyOptions opts).maxRetries = N → 0 < N →
      (∀ k : Nat, k < N.toNat → 0 < (Retrier.applyOptions opts).backoff
        (Retrier.applyOptions opts).minDelay (Retrier.applyOptions opts).maxDelay (k : ℤ)) →
      (Retrier.RetryWithData (fun k => (vals k, some (errs k))) ctxT ctxW ctxE zero
          opts).notes =
        Retrier.traceMap (fun k => (errs k, (Retrier.applyOptions opts).backoff
          (Retrier.applyOptions opts).minDelay (Retrier.applyOptions opts).maxDelay
          (k : ℤ))) 0 N.toNat ∧
      (Retrier.RetryWithData (fun k => (vals k, some (errs k))) ctxT ctxW ctxE zero
          opts).delays =
        Retrier.traceMap (fun k => (Retrier.applyOptions opts).backoff
          (Retrier.applyOptions opts).minDelay (Retrier.applyOptions opts).maxDelay
          (k : ℤ)) 0 N.toNat) ∧
    (∀ (vals : Nat → T) (errs : Nat → E) (ctxE : E) (zero : T)
        (opts : List (Retrier.Configuration → Retrier.Configuration)),
      (Retrier.applyOptions opts).notifier = true →
      0 < (Retrier.applyOptions opts).maxRetries →
      0 < (Retrier.applyOptions opts).backoff (Retrier.applyOptions opts).minDelay
        (Retrier.applyOptions opts).maxDelay ((0 : Nat) : ℤ) →
      (Retrier.RetryWithData (fun k => (vals k, some (errs k))) (fun _ => false)
          (fun _ => true) ctxE zero opts).notes =
        [(errs 0, (Retrier.applyOptions opts).backoff (Retrier.applyOptions opts).minDelay
          (Retrier.applyOptions opts).maxDelay 0)] ∧
      (Retrier.RetryWithData (fun k => (vals k, some (errs k))) (fun _ => false)
          (fun _ => true) ctxE zero opts).waits = 0) := by
  refine ⟨?_, ?_, ?_⟩
  · intro op ctxT ctxW ctxE zero opts
    simp only [Retrier.RetryWithData, Retrier.applyOptions_append_notifier]
    rcases hnot : (Retrier.applyOptions opts).notifier with _ | _
    · exact Retrier.retryAux_notif_erase op ctxT ctxW ctxE _ _ _ _ 0 zero none
    · rfl
  · intro vals errs ctxT ctxW ctxE zero opts N hT hW hnotif hcfg hN hb
    obtain ⟨n, hn⟩ : ∃ n, N.toNat = n + 1 := ⟨N.toNat - 1, by omega⟩
    simp only [Retrier.RetryWithData, hcfg, hnotif, hn]
    rw [Retrier.retryAux_fail vals errs ctxT ctxW hT hW ctxE _ _ _ _ n 0 zero none
      (fun k h1 h2 => hb k (by omega))]
    constructor
    · simp
    · simp
  · intro vals errs ctxE zero opts hnotif hpos hb0
    obtain ⟨n, hn⟩ : ∃ n, (Retrier.applyOptions opts).maxRetries.toNat = n + 1 :=
      ⟨(Retrier.applyOptions opts).maxRetries.toNat - 1, by omega⟩
    simp only [Retrier.RetryWithData, hnotif, hn]
    rw [Retrier.retryAux_wait_cancelled rfl rfl hb0 rfl]
    constructor
    · simp
    · rfl

/-- Witness for C9: default policy plus `WithNotifier`, always-failing
operation — the notifier receives each of the three attempts' errors
with the exponential delays 100ms, 200ms, 400ms. -/
theorem c9_notifier_advisory_witness :
    (Retrier.RetryWithData (fun k => (k, some (k + 5))) (fun _ => false) (fun _ => false)
      0 0 [Retrier.WithNotifier]).notes =
      [(5, 100000000), (6, 200000000), (7, 400000000)] := by
  have h := ((c9_notifier_advisory Nat Nat).2.1 (fun k => k) (fun k => k + 5)
    (fun _ => false) (fun _ => false) 0 0 [Retrier.WithNotifier] 3
    (fun _ => rfl) (fun _ => rfl) rfl rfl (by decide) (by decide)).1
  rw [h]
  decide
